import Mathlib

/-!
Verification of the trajectory-visualizer sources: a shallow embedding of
the upload/classification pipeline (UploadTrajectory in
src/components/share/trajectory-list.tsx), the item filter and renderer
dispatch (TrajectoryList in the same file), and the run-details view
branch selection (RunDetails).

JavaScript dynamic values parsed from JSON are modelled by the inductive
type Json below.  Member access and the in-operator are modelled
faithfully, including the TypeError raised when the receiver is null or a
primitive, via Except String.  Truthiness follows JavaScript: null, false,
0 and the empty string are falsy; every array and object is truthy.
-/

namespace TrajViz

/-- A parsed JSON value (the result of JSON.parse).  Numbers are modelled
as integers, which suffices for every claim considered here. -/
inductive Json where
  | null
  | bool (b : Bool)
  | num (n : Int)
  | str (s : String)
  | arr (elems : List Json)
  | obj (fields : List (String × Json))

/-- JavaScript truthiness of a value. -/
def truthy : Json → Bool
  | .null => false
  | .bool b => b
  | .num n => n != 0
  | .str s => s != ""
  | .arr _ => true
  | .obj _ => true

/-- Truthiness of a possibly-undefined value (none models undefined). -/
def truthyO : Option Json → Bool
  | none => false
  | some j => truthy j

/-- Whether typeof v is the string "object" (true for null, arrays and
plain objects). -/
def typeofIsObject : Json → Bool
  | .null => true
  | .arr _ => true
  | .obj _ => true
  | _ => false

/-- Member access v.k.  Accessing a member of null raises a TypeError;
primitives are boxed and have none of the data fields used by this code;
an object yields its own field or undefined (none).  The only array
member this code ever reads is length, handled separately. -/
def getProp : Json → String → Except String (Option Json)
  | .null, k => .error ("TypeError: Cannot read properties of null (reading " ++ k ++ ")")
  | .obj fs, k => .ok (fs.lookup k)
  | .arr es, k => if k == "length" then .ok (some (.num es.length)) else .ok none
  | _, _ => .ok none

/-- The in-operator k in v.  Raises a TypeError unless v is an object or
an array; the data fields this code tests for are never inherited from a
prototype. -/
def hasProp : Json → String → Except String Bool
  | .obj fs, k => .ok ((fs.lookup k).isSome)
  | .arr _, k => .ok (k == "length")
  | v, _ => .error ("TypeError: Cannot use in operator to search in " ++ (if v matches .null then "null" else "a primitive"))

/-- Total version of the in-operator, usable where the receiver is known
to be an object or an array (it is guarded by a typeof check in the
source). -/
def hasPropB : Json → String → Bool
  | .obj fs, k => (fs.lookup k).isSome
  | .arr _, k => k == "length"
  | _, _ => false

/-- Short-circuit JavaScript conjunction of two effectful boolean tests. -/
def jsAnd (a b : Except String Bool) : Except String Bool := do
  if (← a) then b else pure false

/-- Short-circuit JavaScript disjunction of two effectful boolean tests. -/
def jsOr (a b : Except String Bool) : Except String Bool := do
  if (← a) then pure true else b

/-- Whether a possibly-undefined value is an array (Array.isArray). -/
def isArrayO : Option Json → Bool
  | some (.arr _) => true
  | _ => false

/-- The format classifier processOpenHandsTrajectory from
UploadTrajectory.  An array is returned as-is after probing its first
element (when present) with the in-operator, which can raise; a non-array
value has its entries member read (which raises a TypeError on null),
then its history member; an object with an array entries field is
returned whole, an object with an array history field is unwrapped to
that array, and anything else is returned unchanged. -/
def processOpenHandsTrajectory (content : Json) : Except String Json :=
  match content with
  | .arr [] => .ok content
  | .arr (first :: rest) =>
      match jsOr (jsAnd (hasProp first "action") (hasProp first "source"))
                 (jsAnd (hasProp first "observation") (hasProp first "source")) with
      | .error msg => .error msg
      | .ok _ => .ok (.arr (first :: rest))
  | other =>
      match getProp other "entries" with
      | .error msg => .error msg
      | .ok e =>
        if truthyO e && isArrayO e then .ok other
        else
          match getProp other "history" with
          | .error msg => .error msg
          | .ok h =>
            if truthyO h && isArrayO h then .ok (h.getD .null)
            else .ok other

example : processOpenHandsTrajectory (.obj [("history", .arr [.num 1, .num 2])]) = .ok (.arr [.num 1, .num 2]) := rfl
example : processOpenHandsTrajectory (.obj [("entries", .arr [.num 1])]) = .ok (.obj [("entries", .arr [.num 1])]) := rfl
example : (processOpenHandsTrajectory .null).isOk = false := rfl
example : (processOpenHandsTrajectory (.arr [.num 5])).isOk = false := rfl
example : processOpenHandsTrajectory (.str "abc") = .ok (.str "abc") := rfl
example : processOpenHandsTrajectory (.arr [.obj [("action", .str "run"), ("source", .str "agent")]]) = .ok (.arr [.obj [("action", .str "run"), ("source", .str "agent")]]) := rfl

/-! ## Upload ingestion (UploadTrajectory: onDrop and reader.onload) -/

/-- The local state of UploadTrajectory: the isProcessing flag and the
inline error message. -/
structure UploadState where
  isProcessing : Bool
  error : Option String
deriving DecidableEq

/-- Externally observable effects of the upload handler: the optional
onUploadStart notification, the onUpload delivery of content to the
host, and the blocking window.alert. -/
inductive UploadEvent where
  | uploadStart
  | upload (content : Json)
  | alert (msg : String)

/-- Result of running the synchronous part of reader.onload: the state
after it returns, the events it emitted, and the content of a delayed
onUpload delivery scheduled with setTimeout (none when nothing was
scheduled). -/
structure OnLoadResult where
  state : UploadState
  events : List UploadEvent
  pendingUpload : Option Json

/-- The envelope built for the trajectory-viewer path: an object with a
trajectoryData field and fileType set to the string trajectory. -/
def wrapTrajectory (t : Json) : Json :=
  .obj [("trajectoryData", t), ("fileType", .str "trajectory")]

/-- The guard selecting the JSONL path: the processed value is truthy, of
typeof object, and has a jsonlContent member. -/
def isJsonlResult (p : Json) : Bool :=
  truthy p && typeofIsObject p && hasPropB p "jsonlContent"

/-- The delivery policy applied to a successfully classified value: the
JSONL path uploads it directly; an array of more than 500 elements is
wrapped and scheduled for delayed delivery, leaving isProcessing true
until the timeout fires; everything else is wrapped and uploaded
synchronously, with isProcessing reset at once. -/
def deliver (processed : Json) : OnLoadResult :=
  if isJsonlResult processed then
    ⟨⟨false, none⟩, [.upload processed], none⟩
  else
    match processed with
    | .arr es =>
        if 500 < es.length then
          ⟨⟨true, none⟩, [], some (wrapTrajectory (.arr es))⟩
        else
          ⟨⟨false, none⟩, [.upload (wrapTrajectory (.arr es))], none⟩
    | other => ⟨⟨false, none⟩, [.upload (wrapTrajectory other)], none⟩

/-- The inline error text produced by the catch block, interpolating the
message of the caught error. -/
def parseErrorText (msg : String) : String :=
  "Failed to parse the trajectory file: " ++ msg ++ ". Please make sure it is a valid JSON file."

/-- The fixed text of the blocking alert shown by the catch block. -/
def alertText : String :=
  "Failed to parse the trajectory file. Please make sure it is a valid JSON file."

/-- The synchronous body of reader.onload.  The parse result of the file
text is given as an Except carrying the parser error message on failure;
classification runs inside the same try block, so a TypeError it raises
is caught by the same catch, which records the inline error, shows the
alert, clears isProcessing, and delivers nothing to the host. -/
def readerOnLoad (parseResult : Except String Json) : OnLoadResult :=
  match parseResult.bind processOpenHandsTrajectory with
  | .error msg => ⟨⟨false, some (parseErrorText msg)⟩, [.alert alertText], none⟩
  | .ok processed => deliver processed

/-- Firing the pending setTimeout callback: it delivers the scheduled
content through onUpload and only then clears isProcessing. -/
def firePending (r : OnLoadResult) : OnLoadResult :=
  match r.pendingUpload with
  | none => r
  | some c => ⟨⟨false, r.state.error⟩, r.events ++ [.upload c], none⟩

/-- Result of the synchronous part of onDrop: the state after it, the
events emitted, and the name of the file whose read was started (none
when no read was started, in which case reader.onload never runs). -/
structure OnDropResult where
  state : UploadState
  events : List UploadEvent
  readStarted : Option String

/-- The onDrop callback of UploadTrajectory up to starting the file
read.  An empty accepted-files list returns before touching any state or
callback; otherwise isProcessing is set, the error cleared, the host
notified that an upload started, and a read of the first file begins. -/
def onDrop (acceptedFiles : List String) (s : UploadState) : OnDropResult :=
  match acceptedFiles with
  | [] => ⟨s, [], none⟩
  | f :: _ => ⟨⟨true, none⟩, [.uploadStart], some f⟩

example : (readerOnLoad (.error "Unexpected token")).state.error = some (parseErrorText "Unexpected token") := rfl
example : (deliver (.arr [])).pendingUpload = none := rfl

/-! ## TrajectoryList: pre-filter and renderer dispatch

A TrajectoryItem is a union of object shapes in the source, so an item is
modelled as the field list of a JavaScript object. -/

/-- A trajectory item: the fields of the underlying JavaScript object. -/
def TrajectoryItem := List (String × Json)

/-- Field read item.k on an item, undefined (none) when absent. -/
def itemGet (item : TrajectoryItem) (k : String) : Option Json :=
  List.lookup k item

/-- The in-operator on an item (own fields; the probed data fields are
never prototype members). -/
def itemHas (item : TrajectoryItem) (k : String) : Bool :=
  (itemGet item k).isSome

/-- Strict equality of a possibly-undefined value with a string literal. -/
def strictEqStr (v : Option Json) (s : String) : Bool :=
  match v with
  | some (.str t) => t == s
  | _ => false

/-- Whether a possibly-undefined value is of typeof string. -/
def isStringO : Option Json → Bool
  | some (.str _) => true
  | _ => false

/-- The pre-filter shouldDisplayItem of TrajectoryList: drop items whose
action field equals the string change_agent_state, and drop items whose
observation field is a string equal to the string null; keep everything
else. -/
def shouldDisplayItem (item : TrajectoryItem) : Bool :=
  if itemHas item "action" && strictEqStr (itemGet item "action") "change_agent_state" then
    false
  else if itemHas item "observation" && isStringO (itemGet item "observation")
      && strictEqStr (itemGet item "observation") "null" then
    false
  else
    true

/-- The filtered sequence rendered by TrajectoryList. -/
def filteredTrajectory (trajectory : List TrajectoryItem) : List TrajectoryItem :=
  trajectory.filter shouldDisplayItem

/-- The count shown in the Trajectory Items header label. -/
def headerCount (trajectory : List TrajectoryItem) : Nat :=
  (filteredTrajectory trajectory).length

/-- The fourteen renderer kinds of the dispatch chain in TrajectoryList. -/
inductive RendererKind where
  | agentStateChange
  | userMessage
  | assistantMessage
  | commandAction
  | commandObservation
  | ipythonAction
  | ipythonObservation
  | finishAction
  | errorObservation
  | readAction
  | readObservation
  | editAction
  | editObservation
  | unknown
deriving DecidableEq

/-- Modelled from the spec: the type guard isAgentStateChange imported
from src/utils/share, which is not among the sources; section 4.2 gives
it as the check that action equals the string change_agent_state. -/
def isAgentStateChange (item : TrajectoryItem) : Bool :=
  strictEqStr (itemGet item "action") "change_agent_state"

/-- Modelled from the spec: the type guard isUserMessage from
src/utils/share (not among the sources); role equals the string user. -/
def isUserMessage (item : TrajectoryItem) : Bool :=
  strictEqStr (itemGet item "role") "user"

/-- Modelled from the spec: the type guard isAssistantMessage from
src/utils/share (not among the sources); role equals the string
assistant. -/
def isAssistantMessage (item : TrajectoryItem) : Bool :=
  strictEqStr (itemGet item "role") "assistant"

/-- Modelled from the spec: the type guard isCommandAction from
src/utils/share (not among the sources); action equals the string run. -/
def isCommandAction (item : TrajectoryItem) : Bool :=
  strictEqStr (itemGet item "action") "run"

/-- Modelled from the spec: the type guard isCommandObservation from
src/utils/share (not among the sources); observation equals the string
run. -/
def isCommandObservation (item : TrajectoryItem) : Bool :=
  strictEqStr (itemGet item "observation") "run"

/-- Modelled from the spec: the type guard isIPythonAction from
src/utils/share (not among the sources); action equals the string
run_ipython. -/
def isIPythonAction (item : TrajectoryItem) : Bool :=
  strictEqStr (itemGet item "action") "run_ipython"

/-- Modelled from the spec: the type guard isIPythonObservation from
src/utils/share (not among the sources); observation equals the string
run_ipython. -/
def isIPythonObservation (item : TrajectoryItem) : Bool :=
  strictEqStr (itemGet item "observation") "run_ipython"

/-- Modelled from the spec: the type guard isFinishAction from
src/utils/share (not among the sources); action equals the string
finish. -/
def isFinishAction (item : TrajectoryItem) : Bool :=
  strictEqStr (itemGet item "action") "finish"

/-- Modelled from the spec: the type guard isErrorObservation from
src/utils/share (not among the sources); observation equals the string
error. -/
def isErrorObservation (item : TrajectoryItem) : Bool :=
  strictEqStr (itemGet item "observation") "error"

/-- Modelled from the spec: the type guard isReadAction from
src/utils/share (not among the sources); action equals the string read. -/
def isReadAction (item : TrajectoryItem) : Bool :=
  strictEqStr (itemGet item "action") "read"

/-- Modelled from the spec: the type guard isReadObservation from
src/utils/share (not among the sources); observation equals the string
read. -/
def isReadObservation (item : TrajectoryItem) : Bool :=
  strictEqStr (itemGet item "observation") "read"

/-- Modelled from the spec: the type guard isEditAction from
src/utils/share (not among the sources); action equals the string edit. -/
def isEditAction (item : TrajectoryItem) : Bool :=
  strictEqStr (itemGet item "action") "edit"

/-- Modelled from the spec: the type guard isEditObservation from
src/utils/share (not among the sources); observation equals the string
edit. -/
def isEditObservation (item : TrajectoryItem) : Bool :=
  strictEqStr (itemGet item "observation") "edit"

/-- The renderer dispatch of TrajectoryList, translated from the if-else
chain of the map callback: the first matching guard selects the
renderer, and the final else renders the raw-JSON fallback card
(unknown). -/
def selectRenderer (item : TrajectoryItem) : RendererKind :=
  if isAgentStateChange item then .agentStateChange
  else if isUserMessage item then .userMessage
  else if isAssistantMessage item then .assistantMessage
  else if isCommandAction item then .commandAction
  else if isCommandObservation item then .commandObservation
  else if isIPythonAction item then .ipythonAction
  else if isIPythonObservation item then .ipythonObservation
  else if isFinishAction item then .finishAction
  else if isErrorObservation item then .errorObservation
  else if isReadAction item then .readAction
  else if isReadObservation item then .readObservation
  else if isEditAction item then .editAction
  else if isEditObservation item then .editObservation
  else .unknown

/-- First-match selection over an ordered list of guard-kind pairs,
falling back to unknown; used to state the priority-order claim. -/
def chainSelect : List ((TrajectoryItem → Bool) × RendererKind) → TrajectoryItem → RendererKind
  | [], _ => .unknown
  | (p, k) :: rest, item => if p item then k else chainSelect rest item

/-- The thirteen guard-kind pairs in the priority order stated by the
spec, followed by the unknown fallback in chainSelect. -/
def rendererChain : List ((TrajectoryItem → Bool) × RendererKind) :=
  [(isAgentStateChange, .agentStateChange),
   (isUserMessage, .userMessage),
   (isAssistantMessage, .assistantMessage),
   (isCommandAction, .commandAction),
   (isCommandObservation, .commandObservation),
   (isIPythonAction, .ipythonAction),
   (isIPythonObservation, .ipythonObservation),
   (isFinishAction, .finishAction),
   (isErrorObservation, .errorObservation),
   (isReadAction, .readAction),
   (isReadObservation, .readObservation),
   (isEditAction, .editAction),
   (isEditObservation, .editObservation)]

example : shouldDisplayItem [("observation", Json.null)] = true := rfl
example : shouldDisplayItem [("observation", Json.str "null")] = false := rfl
example : selectRenderer [("action", Json.str "run")] = .commandAction := rfl
example : chainSelect rendererChain [("action", Json.str "run")] = .commandAction := rfl

/-! ## RunDetails: artifact view branch selection and run-details fetch -/

/-- Optional-chaining member access v?.k: undefined when the receiver is
undefined or null, the own field (or undefined) when it is an object,
undefined for the data keys read here when it is an array or a
primitive. -/
def jsGetOpt : Option Json → String → Option Json
  | none, _ => none
  | some .null, _ => none
  | some (.obj fs), k => fs.lookup k
  | some _, _ => none

/-- The length member of a value: defined for arrays and strings,
undefined for the other shapes that can appear here. -/
def jsLength : Json → Option Nat
  | .arr es => some es.length
  | .str s => some s.length
  | _ => none

/-- What RunDetails renders: the loading skeleton, the error banner, the
JSONL viewer, the trajectory viewer, or the generic detail view.  The
generic view records whether the metrics and artifact-data section is
shown, the value and label count of the raw history dump and of the raw
jsonlHistory dump when each is shown, and whether the no-content
empty-state message is shown. -/
inductive RunView where
  | skeleton
  | errorBanner (msg : String)
  | jsonlViewer (content : Json)
  | trajectoryViewer (data : Json)
  | generic (showMetricsSection : Bool)
            (historyDump : Option (Json × Option Nat))
            (jsonlHistoryDump : Option (Json × Option Nat))
            (showEmptyState : Bool)

/-- The guard of the JSONL branch: content?.fileType is strictly the
string jsonl and content?.jsonlContent is truthy. -/
def jsonlBranchCond (content : Option Json) : Bool :=
  strictEqStr (jsGetOpt content "fileType") "jsonl" && truthyO (jsGetOpt content "jsonlContent")

/-- The guard of the trajectory branch: content?.fileType is strictly the
string trajectory and content?.trajectoryData is truthy. -/
def trajectoryBranchCond (content : Option Json) : Bool :=
  strictEqStr (jsGetOpt content "fileType") "trajectory" && truthyO (jsGetOpt content "trajectoryData")

/-- The render function of RunDetails, translated from its return
expressions in order: the skeleton while any of the three loading flags
is set, the error banner when an error is recorded or no run details are
present, then the JSONL branch, the trajectory branch, and finally the
generic detail view with its four conditional sections. -/
def renderRunDetails (loading contentLoading processingArtifact : Bool)
    (error : Option String) (runDetailsPresent : Bool)
    (artifactContent : Option Json) : RunView :=
  if loading || contentLoading || processingArtifact then
    .skeleton
  else if error.isSome || !runDetailsPresent then
    .errorBanner (error.getD "Failed to load run details")
  else
    let content := jsGetOpt artifactContent "content"
    if jsonlBranchCond content then
      .jsonlViewer ((jsGetOpt content "jsonlContent").getD .null)
    else if trajectoryBranchCond content then
      .trajectoryViewer ((jsGetOpt content "trajectoryData").getD .null)
    else
      .generic
        (truthyO content &&
          (truthyO (jsGetOpt content "metrics") ||
           (truthyO content && !truthyO (jsGetOpt content "issue"))))
        (if truthyO (jsGetOpt content "history") then
           some ((jsGetOpt content "history").getD .null,
                 jsLength ((jsGetOpt content "history").getD .null))
         else none)
        (if truthyO (jsGetOpt content "jsonlHistory") then
           some ((jsGetOpt content "jsonlHistory").getD .null,
                 jsLength ((jsGetOpt content "jsonlHistory").getD .null))
         else none)
        (!truthyO content)

/-- An artifact as far as the fetch logic needs it: its numeric id. -/
structure Artifact where
  id : Nat
deriving DecidableEq

/-- The run-details response as used by fetchRunDetails; the optional
chaining details.artifacts?.artifacts? is collapsed into one optional
list of artifacts. -/
structure RunDetailsResponse where
  artifactsList : Option (List Artifact)

/-- The network calls RunDetails can issue through the api service. -/
inductive ApiCall where
  | getRunDetails (owner repo : String) (runId : Nat)
  | getArtifactContent (owner repo : String) (artifactId : Nat)
deriving DecidableEq

/-- The api calls issued by fetchRunDetails in the RunDetails effect,
given the response the getRunDetails call would return.  Empty owner or
repo strings are falsy and abort; with initialContent present no call is
made; otherwise run details are fetched, and when the response holds
exactly one artifact and the run conclusion is the string success,
handleArtifactSelect fetches that artifact content with no user
interaction.  The run prop is a required object, hence always truthy. -/
def fetchRunDetailsCalls (owner repo : String) (runId : Nat)
    (conclusion : Option String) (initialContent : Option Json)
    (details : RunDetailsResponse) : List ApiCall :=
  if owner == "" || repo == "" then []
  else if initialContent.isSome then []
  else
    .getRunDetails owner repo runId ::
      (match details.artifactsList with
       | some (a :: rest) =>
           if (a :: rest).length == 1 && conclusion == some "success" then
             [.getArtifactContent owner repo a.id]
           else []
       | _ => [])

example : fetchRunDetailsCalls "o" "r" 7 (some "success") none ⟨some [⟨42⟩]⟩ =
    [.getRunDetails "o" "r" 7, .getArtifactContent "o" "r" 42] := rfl
example : renderRunDetails false false false none true (some (.obj [("content", .obj [])])) =
    .generic true none none false := rfl

/-! ## Helper lemmas -/

theorem jsAnd_ok (x y : Bool) : jsAnd (.ok x) (.ok y) = .ok (x && y) := by
  cases x <;> rfl

theorem jsOr_ok (x y : Bool) : jsOr (.ok x) (.ok y) = .ok (x || y) := by
  cases x <;> rfl

theorem hasProp_obj (fs : List (String × Json)) (k : String) :
    hasProp (.obj fs) k = .ok ((fs.lookup k).isSome) := rfl

theorem hasProp_arr (es : List Json) (k : String) :
    hasProp (.arr es) k = .ok (k == "length") := rfl

theorem processOpenHandsTrajectory_obj_head (fs : List (String × Json)) (rest : List Json) :
    processOpenHandsTrajectory (Json.arr (Json.obj fs :: rest)) =
      Except.ok (Json.arr (Json.obj fs :: rest)) := by
  simp only [processOpenHandsTrajectory, hasProp_obj, jsAnd_ok, jsOr_ok]

theorem truthyO_some_arr (es : List Json) : truthyO (some (.arr es)) = true := rfl

theorem isArrayO_some_arr (es : List Json) : isArrayO (some (.arr es)) = true := rfl

theorem strictEqStr_iff (v : Option Json) (s : String) :
    strictEqStr v s = true ↔ v = some (.str s) := by
  rcases v with _ | j
  · simp [strictEqStr]
  · cases j <;> simp [strictEqStr]

theorem guard_action_eq (item : TrajectoryItem) :
    (itemHas item "action" && strictEqStr (itemGet item "action") "change_agent_state")
      = strictEqStr (itemGet item "action") "change_agent_state" := by
  rcases h : itemGet item "action" with _ | j <;>
    simp [itemHas, h, strictEqStr]

theorem guard_observation_eq (item : TrajectoryItem) :
    (itemHas item "observation" && isStringO (itemGet item "observation")
        && strictEqStr (itemGet item "observation") "null")
      = strictEqStr (itemGet item "observation") "null" := by
  rcases h : itemGet item "observation" with _ | j
  · simp [itemHas, h, strictEqStr]
  · cases j <;> simp [itemHas, h, strictEqStr, isStringO]

/-! ## Claim theorems -/

/-- Claim C2: the pre-filter drops a trajectory item exactly when its
action field equals the string change_agent_state or its observation
field is the literal string null; in particular an item whose
observation is the JSON null value is not dropped by the pre-filter,
while one whose observation is the string null is. -/
theorem preFilter_drops_iff :
    (∀ item : TrajectoryItem,
       shouldDisplayItem item = false ↔
         (itemGet item "action" = some (Json.str "change_agent_state") ∨
          itemGet item "observation" = some (Json.str "null"))) ∧
    shouldDisplayItem [("observation", Json.str "null")] = false ∧
    shouldDisplayItem [("observation", Json.null)] = true := by
  refine ⟨?_, rfl, rfl⟩
  intro item
  unfold shouldDisplayItem
  rw [guard_action_eq, guard_observation_eq]
  cases ha : strictEqStr (itemGet item "action") "change_agent_state" <;>
    cases ho : strictEqStr (itemGet item "observation") "null" <;>
      simp [ha, ho, ← strictEqStr_iff]

/-- Claim C5: the renderer dispatch of TrajectoryList is first-match
selection over the thirteen shape guards in exactly the stated priority
order, with unknown as the exhaustive fallback, so every item resolves
to exactly one of the fourteen kinds. -/
theorem selectRenderer_eq_chain :
    ∀ item : TrajectoryItem, selectRenderer item = chainSelect rendererChain item := by
  intro item
  rfl

/-- Claim C6: the Trajectory Items header label reports the post-filter
count, which never exceeds the input length; for the two-item input
whose second item is a change_agent_state action the label count is 1. -/
theorem headerCount_postFilter :
    (∀ trajectory : List TrajectoryItem, headerCount trajectory ≤ trajectory.length) ∧
    headerCount [[("action", Json.str "run"), ("args", Json.obj [("command", Json.str "ls")])],
                 [("action", Json.str "change_agent_state")]] = 1 := by
  refine ⟨fun t => ?_, rfl⟩
  exact List.length_filter_le _ _

/-- Claim C10: a drop event with an empty accepted-files list leaves the
upload handler state untouched, emits no event (in particular neither
the upload-start notification nor an upload), and starts no file read,
so reader.onload never runs. -/
theorem onDrop_empty_noop :
    ∀ s : UploadState, onDrop [] s = ⟨s, [], none⟩ := by
  intro s
  rfl

/-- Claim C1 (amended): on a parse or classification failure the upload
handler moves to the failed state: isProcessing is cleared, the inline
error interpolates the parser error message (but not the file name) into
a fixed template, a blocking alert with a fixed text is shown, no upload
is delivered to the host and no delayed delivery is scheduled; the
parser error message occurs verbatim inside the inline error. -/
theorem uploadError_failed_state :
    ∀ msg : String,
      readerOnLoad (Except.error msg) =
        ⟨⟨false, some (parseErrorText msg)⟩, [.alert alertText], none⟩ ∧
      msg.toList <:+: (parseErrorText msg).toList := by
  intro msg
  refine ⟨rfl, "Failed to parse the trajectory file: ".toList,
    ". Please make sure it is a valid JSON file.".toList, ?_⟩
  show _ = (("Failed to parse the trajectory file: " ++ msg
      ++ ". Please make sure it is a valid JSON file.") : String).data
  simp [String.data_append, String.toList]

set_option maxRecDepth 40000 in
/-- Claim C1 counterexample: for a dropped file named trajectory.json
whose text raises the parser error Unexpected token, the inline error
produced by the catch block does not contain the file name, and the
blocking alert text contains neither the file name nor the parser error
message, refuting that both surfaced messages name the file and the
parser error. -/
theorem uploadError_message_cex :
    (readerOnLoad (Except.error "Unexpected token")).state.error =
      some (parseErrorText "Unexpected token") ∧
    ¬ ("trajectory.json".toList <:+: (parseErrorText "Unexpected token").toList) ∧
    (readerOnLoad (Except.error "Unexpected token")).events = [.alert alertText] ∧
    ¬ ("Unexpected token".toList <:+: alertText.toList) := by
  refine ⟨rfl, by decide, rfl, by decide⟩

/-- Claim C3: when classification returns an array unchanged, a length
of at most 500 (500 included) is delivered synchronously, with the
wrapped content uploaded at once and isProcessing cleared; a length
above 500 schedules a delayed delivery instead, leaving isProcessing
true with no upload emitted until the pending timeout fires, after
which the content is uploaded and isProcessing cleared. -/
theorem deliver_size_policy :
    ∀ es : List Json,
      processOpenHandsTrajectory (Json.arr es) = Except.ok (Json.arr es) →
      ((es.length ≤ 500 →
          readerOnLoad (Except.ok (Json.arr es)) =
            ⟨⟨false, none⟩, [.upload (wrapTrajectory (Json.arr es))], none⟩) ∧
       (500 < es.length →
          readerOnLoad (Except.ok (Json.arr es)) =
            ⟨⟨true, none⟩, [], some (wrapTrajectory (Json.arr es))⟩ ∧
          firePending (readerOnLoad (Except.ok (Json.arr es))) =
            ⟨⟨false, none⟩, [.upload (wrapTrajectory (Json.arr es))], none⟩)) := by
  intro es h
  have hr : readerOnLoad (Except.ok (Json.arr es)) = deliver (Json.arr es) := by
    simp [readerOnLoad, Except.bind, h]
  have hj : isJsonlResult (Json.arr es) = false := by
    simp [isJsonlResult, truthy, typeofIsObject, hasPropB]
  constructor
  · intro hle
    rw [hr]
    simp [deliver, hj]
    omega
  · intro hgt
    have hd : deliver (Json.arr es) = ⟨⟨true, none⟩, [], some (wrapTrajectory (Json.arr es))⟩ := by
      simp [deliver, hj]
      omega
    refine ⟨by rw [hr, hd], by rw [hr, hd]; rfl⟩

/-- Witness for claim C3: a 500-element array is delivered
synchronously, a 501-element array is scheduled for delayed delivery. -/
theorem deliver_size_policy_witness :
    readerOnLoad (Except.ok (Json.arr (Json.obj [] :: List.replicate 499 (Json.obj [])))) =
      ⟨⟨false, none⟩,
       [.upload (wrapTrajectory (Json.arr (Json.obj [] :: List.replicate 499 (Json.obj []))))],
       none⟩ ∧
    readerOnLoad (Except.ok (Json.arr (Json.obj [] :: List.replicate 500 (Json.obj [])))) =
      ⟨⟨true, none⟩, [],
       some (wrapTrajectory (Json.arr (Json.obj [] :: List.replicate 500 (Json.obj []))))⟩ :=
  ⟨(deliver_size_policy _ (processOpenHandsTrajectory_obj_head _ _)).1
     (by simp only [List.length_cons, List.length_replicate]; omega),
   ((deliver_size_policy _ (processOpenHandsTrajectory_obj_head _ _)).2
     (by simp only [List.length_cons, List.length_replicate]; omega)).1⟩

/-- Claim C4 counterexample: the singleton array holding the number 5 is
not returned unchanged by the classifier: probing its first element with
the in-operator raises a TypeError, refuting that every array not
matching the first shape check is returned as-is. -/
theorem classifier_array_identity_cex :
    processOpenHandsTrajectory (Json.arr [Json.num 5]) ≠ Except.ok (Json.arr [Json.num 5]) := by
  intro h
  exact Except.noConfusion h

/-- Claim C4 (amended): the classifier follows the stated first-match
decision order, with one proviso on the array cases: an array whose
first element is an object or an array is returned unchanged (whether or
not the first shape check matches), and the empty array is returned
unchanged, but probing a primitive or null first element raises a
TypeError instead; an object with an array entries field is returned
whole; an object whose entries field is not an array but whose history
field is an array yields exactly that history array. -/
theorem classifier_decision_order :
    (∀ (fs : List (String × Json)) (rest : List Json),
       processOpenHandsTrajectory (Json.arr (Json.obj fs :: rest)) =
         Except.ok (Json.arr (Json.obj fs :: rest))) ∧
    (∀ (es rest : List Json),
       processOpenHandsTrajectory (Json.arr (Json.arr es :: rest)) =
         Except.ok (Json.arr (Json.arr es :: rest))) ∧
    processOpenHandsTrajectory (Json.arr []) = Except.ok (Json.arr []) ∧
    (∀ (fields : List (String × Json)) (es : List Json),
       fields.lookup "entries" = some (Json.arr es) →
       processOpenHandsTrajectory (Json.obj fields) = Except.ok (Json.obj fields)) ∧
    (∀ (fields : List (String × Json)) (hs : List Json),
       isArrayO (fields.lookup "entries") = false →
       fields.lookup "history" = some (Json.arr hs) →
       processOpenHandsTrajectory (Json.obj fields) = Except.ok (Json.arr hs)) := by
  refine ⟨processOpenHandsTrajectory_obj_head, ?_, rfl, ?_, ?_⟩
  · intro es rest
    simp only [processOpenHandsTrajectory, hasProp_arr, jsAnd_ok, jsOr_ok]
  · intro fields es h
    simp [processOpenHandsTrajectory, getProp, h, truthyO, truthy, isArrayO]
  · intro fields hs he hh
    simp [processOpenHandsTrajectory, getProp, he, hh, truthyO_some_arr, isArrayO_some_arr]

/-- Witness for claim C4: the already-normalized singleton, an object
with an entries array, and an object with a history array, each
classified as the amended claim states. -/
theorem classifier_decision_order_witness :
    processOpenHandsTrajectory
        (Json.arr [Json.obj [("action", Json.str "run"), ("source", Json.str "agent")]]) =
      Except.ok (Json.arr [Json.obj [("action", Json.str "run"), ("source", Json.str "agent")]]) ∧
    processOpenHandsTrajectory (Json.obj [("entries", Json.arr [Json.num 1, Json.num 2])]) =
      Except.ok (Json.obj [("entries", Json.arr [Json.num 1, Json.num 2])]) ∧
    processOpenHandsTrajectory (Json.obj [("history", Json.arr [Json.num 1, Json.num 2, Json.num 3])]) =
      Except.ok (Json.arr [Json.num 1, Json.num 2, Json.num 3]) :=
  ⟨classifier_decision_order.1 _ _,
   classifier_decision_order.2.2.2.1 _ _ rfl,
   classifier_decision_order.2.2.2.2 _ _ rfl rfl⟩

/-- Claim C7 counterexample: the classifier does not return the JSON
null value unchanged: reading the entries member of null raises a
TypeError, refuting that every parsed non-array value without entries
and history sequences (including JSON null) passes through unchanged
without throwing. -/
theorem classifier_null_throws_cex :
    processOpenHandsTrajectory Json.null ≠ Except.ok Json.null := by
  intro h
  exact Except.noConfusion h

/-- Claim C7 (amended): every parsed value that is not an array, not
JSON null, and has neither an entries sequence nor a history sequence
field is returned unchanged without throwing (booleans, numbers,
strings, and objects without those array fields); JSON null is the one
exception: reading its entries member raises a TypeError, which the
upload handler catches and reports as a parse failure. -/
theorem classifier_opaque_passthrough :
    (∀ b : Bool, processOpenHandsTrajectory (Json.bool b) = Except.ok (Json.bool b)) ∧
    (∀ n : Int, processOpenHandsTrajectory (Json.num n) = Except.ok (Json.num n)) ∧
    (∀ s : String, processOpenHandsTrajectory (Json.str s) = Except.ok (Json.str s)) ∧
    (∀ fields : List (String × Json),
       isArrayO (fields.lookup "entries") = false →
       isArrayO (fields.lookup "history") = false →
       processOpenHandsTrajectory (Json.obj fields) = Except.ok (Json.obj fields)) ∧
    processOpenHandsTrajectory Json.null =
      Except.error "TypeError: Cannot read properties of null (reading entries)" := by
  refine ⟨fun b => rfl, fun n => rfl, fun s => rfl, ?_, rfl⟩
  intro fields he hh
  simp [processOpenHandsTrajectory, getProp, he, hh]

/-- Witness for claim C7: an object holding only a metrics object is
returned unchanged by the classifier. -/
theorem classifier_opaque_passthrough_witness :
    processOpenHandsTrajectory (Json.obj [("metrics", Json.obj [])]) =
      Except.ok (Json.obj [("metrics", Json.obj [])]) :=
  classifier_opaque_passthrough.2.2.2.1 _ rfl rfl

/-- Claim C8 counterexample: for an artifact envelope whose content is
the empty object, none of metrics, history, jsonlHistory or issue is
present, yet the generic view renders no empty-state message (its
condition is the absence of the whole content value, not of those
fields) and it does show the metrics section; this refutes the stated
empty-state condition. -/
theorem runDetails_emptyState_cex :
    renderRunDetails false false false none true (some (Json.obj [("content", Json.obj [])])) =
      RunView.generic true none none false ∧
    renderRunDetails false false false none true (some (Json.obj [("content", Json.obj [])])) ≠
      RunView.generic true none none true := by
  refine ⟨rfl, fun h => ?_⟩
  rw [show renderRunDetails false false false none true
        (some (Json.obj [("content", Json.obj [])])) =
      RunView.generic true none none false from rfl] at h
  simp at h

/-- Claim C8 (amended): outside the jsonl and trajectory branches and
with no loading or error active, the generic detail view shows the
metrics and artifact-data section exactly when the content value is
truthy and its metrics field is truthy or its issue field is falsy;
shows the raw history dump, labeled with its length, exactly when the
history field is truthy, and likewise for jsonlHistory; and shows the
empty-state message exactly when the content value itself is absent or
falsy, not when the four fields are merely missing. -/
theorem runDetails_generic_sections :
    ∀ artifactContent : Option Json,
      jsonlBranchCond (jsGetOpt artifactContent "content") = false →
      trajectoryBranchCond (jsGetOpt artifactContent "content") = false →
      renderRunDetails false false false none true artifactContent =
        RunView.generic
          (truthyO (jsGetOpt artifactContent "content") &&
            (truthyO (jsGetOpt (jsGetOpt artifactContent "content") "metrics") ||
             (truthyO (jsGetOpt artifactContent "content") &&
              !truthyO (jsGetOpt (jsGetOpt artifactContent "content") "issue"))))
          (if truthyO (jsGetOpt (jsGetOpt artifactContent "content") "history") then
             some ((jsGetOpt (jsGetOpt artifactContent "content") "history").getD .null,
                   jsLength ((jsGetOpt (jsGetOpt artifactContent "content") "history").getD .null))
           else none)
          (if truthyO (jsGetOpt (jsGetOpt artifactContent "content") "jsonlHistory") then
             some ((jsGetOpt (jsGetOpt artifactContent "content") "jsonlHistory").getD .null,
                   jsLength ((jsGetOpt (jsGetOpt artifactContent "content") "jsonlHistory").getD .null))
           else none)
          (!truthyO (jsGetOpt artifactContent "content")) := by
  intro ac h1 h2
  simp [renderRunDetails, h1, h2]

/-- Witness for claim C8: an envelope whose content holds only a
two-element history array lands in the generic view with the metrics
section shown, a history dump labeled with count 2, no jsonlHistory
dump, and no empty-state message. -/
theorem runDetails_generic_sections_witness :
    renderRunDetails false false false none true
        (some (Json.obj [("content",
           Json.obj [("history", Json.arr [Json.null, Json.null])])])) =
      RunView.generic true
        (some (Json.arr [Json.null, Json.null], some 2)) none false :=
  runDetails_generic_sections _ rfl rfl

/-- Claim C9: with no initial content, a non-empty owner and repo, a run
concluded with success and run details holding exactly one artifact, the
effect of RunDetails fetches the run details and then automatically
fetches that single artifact content, with no user interaction
involved. -/
theorem autoSelect_single_artifact :
    ∀ (owner repo : String) (runId : Nat) (a : Artifact),
      owner ≠ "" → repo ≠ "" →
      fetchRunDetailsCalls owner repo runId (some "success") none ⟨some [a]⟩ =
        [.getRunDetails owner repo runId, .getArtifactContent owner repo a.id] := by
  intro o r i a ho hr
  simp [fetchRunDetailsCalls, ho, hr]

/-- Witness for claim C9: a successful run of owner octo and repo demo
with one artifact of id 42 triggers the artifact-content fetch for 42. -/
theorem autoSelect_single_artifact_witness :
    fetchRunDetailsCalls "octo" "demo" 7 (some "success") none ⟨some [⟨42⟩]⟩ =
      [.getRunDetails "octo" "demo" 7, .getArtifactContent "octo" "demo" 42] :=
  autoSelect_single_artifact "octo" "demo" 7 ⟨42⟩ (by decide) (by decide)

end TrajViz
